import Mathlib

/-
  Verification of the Platform48 function_toolkit request-context library.

  The repository contains near-duplicate snapshots of a single component (the
  spec notes that "the functional surface across all near-duplicate snapshots
  collapses to one canonical component").  The definitions below embed the
  canonical, most recent snapshot of the toolkit (src/unnamed/part_001: it has
  the corrected `json:"message,omitempty"` tag, the nil-error guard in
  ErrResponse, and the undecorated SpanId in the success envelope, matching the
  README and the newer test suite).  GetBody is absent from that snapshot and is
  embedded from src/FunctionContext.go, where it lives.

  External collaborators are modelled as inputs:
  - shortid.MustGenerate() produces the span id; it is passed to FuncCtx as a
    parameter (the spec treats id generation as infallible and opaque).
  - the isLocalDeployment environment probe is passed as a Bool parameter.
  - context.Context values are opaque handles (GoContext).
  - the http.ResponseWriter is an opaque handle plus an explicit response state
    (RespState) and a write-behaviour parameter (`writeErr : Option String`
  - models whether the sink's Write call reports an error, and which text).
  - the request body io.Reader is a list of read steps: each Read call yields
    the next step's bytes and error; an exhausted stream reads as (0, EOF).
  - zerolog: an emitted line carries a severity, the message text, the
    structured "spanId" field attached at construction, and whether the logger
    renders through the ConsoleWriter (local mode), whose FieldsExclude
    setting suppresses the structured spanId field from the rendered fields.
    Calling Msg/Msgf on a nil *zerolog.Event is a no-op (zerolog is nil-safe),
    so a switch that leaves the event nil emits nothing.
    Logger.Panic().Msg(m) writes a panic-severity line and then panics with m;
    an operation result records this as `abortMsg = some m`.
-/

namespace FunctionToolkit

/-- JSON values, modelling the output of encoding/json. Marshalling a struct
produces an object whose fields follow the struct's tags in declaration
order; an `omitempty` string field is dropped exactly when it is empty. -/
inductive JsonVal where
  | str (s : String)
  | int (n : Int)
  | obj (fields : List (String × JsonVal))

/-- Fields of a JSON object (empty for non-objects). -/
def JsonVal.objFields : JsonVal → List (String × JsonVal)
  | .obj fs => fs
  | _ => []

/-- Opaque handle standing for a context.Context value. -/
structure GoContext where
  id : Nat
  deriving DecidableEq, Repr

/-- One Read call on the request body stream: the bytes it supplies and the
error it reports (none = nil error). -/
structure ReadStep where
  bytes : List Nat
  err : Option String
  deriving DecidableEq, Repr

/-- The inbound http.Request: declared ContentLength (int64, may be negative
for an unknown length), the body stream, and the request's context.Context. -/
structure Request where
  ContentLength : Int
  bodySteps : List ReadStep
  reqCtx : GoContext
  deriving DecidableEq, Repr

/-- The zerolog.Logger as configured by FuncCtx: the structured "spanId"
field attached with .Str, and whether output goes through the ConsoleWriter
(local deployments). -/
structure Logger where
  spanIdField : String
  console : Bool
  deriving DecidableEq, Repr

/-- The FunctionContext struct (src/unnamed/part_001, lines 21-29). -/
structure FunctionContext where
  Context : GoContext
  SpanId : String
  spanIdLogField : String
  Logger : Logger
  Response : Nat
  Request : Request
  stackFrameLevel : Int
  deriving DecidableEq, Repr

def LogLevelDebug : Int := 0
def LogLevelInfo : Int := 1
def LogLevelWarn : Int := 2
def LogLevelError : Int := 3

inductive Severity where
  | debug
  | info
  | warn
  | error
  deriving DecidableEq, Repr

/-- One emitted log line: severity, the message text handed to Msg/Msgf
(already carrying any inline span-id prefix), the structured spanId field the
logger was built with, and whether it is rendered by the ConsoleWriter. -/
structure LogLine where
  severity : Severity
  messageText : String
  spanIdField : String
  console : Bool
  deriving DecidableEq, Repr

/-- The structured spanId field as it appears in the machine-readable output:
present on JSON (deployed) output, suppressed on console output, where
FieldsExclude lists "spanId" (src/unnamed/part_001, line 54). -/
def LogLine.structuredSpanId (l : LogLine) : Option String :=
  if l.console then none else some l.spanIdField

/-- FuncCtx (src/unnamed/part_001, lines 45-72).  `isLocal` is the
isLocalDeployment environment probe and `spanId` the value produced by
shortid.MustGenerate(); both are external inputs. -/
def FuncCtx (isLocal : Bool) (spanId : String) (w : Nat) (r : Request) : FunctionContext :=
  { SpanId := spanId
    spanIdLogField := if isLocal then "" else "[" ++ spanId ++ "] "
    Logger := { spanIdField := "[" ++ spanId ++ "]", console := isLocal }
    Response := w
    Request := r
    Context := r.reqCtx
    stackFrameLevel := 1 }

/-- WithCtx (src/unnamed/part_001, lines 75-86). -/
def FunctionContext.WithCtx (this : FunctionContext) (ctx : GoContext) : FunctionContext :=
  { SpanId := this.SpanId
    Logger := this.Logger
    Response := this.Response
    Request := this.Request
    Context := ctx
    spanIdLogField := this.spanIdLogField
    stackFrameLevel := 1 }

/-- A line emitted through this.Logger at the given severity: the message text
is the span-id log prefix followed by the message. -/
def mkLog (this : FunctionContext) (sev : Severity) (message : String) : LogLine :=
  { severity := sev
    messageText := this.spanIdLogField ++ message
    spanIdField := this.Logger.spanIdField
    console := this.Logger.console }

/-- Info (src/unnamed/part_001, lines 89-91). -/
def FunctionContext.Info (this : FunctionContext) (message : String) : LogLine :=
  mkLog this .info message

/-- Warn (src/unnamed/part_001, lines 94-96). -/
def FunctionContext.Warn (this : FunctionContext) (message : String) : LogLine :=
  mkLog this .warn message

/-- Error (src/unnamed/part_001, lines 99-101). -/
def FunctionContext.Error (this : FunctionContext) (message : String) : LogLine :=
  mkLog this .error message

/-- Debug (src/unnamed/part_001, lines 104-106). -/
def FunctionContext.Debug (this : FunctionContext) (message : String) : LogLine :=
  mkLog this .debug message

/-- The switch in Log/Logf (src/unnamed/part_001, lines 110-124): the
zerolog event selected for a level, or none when no case matches and the
event variable keeps its nil zero value. -/
def levelEvent (level : Int) : Option Severity :=
  if level = LogLevelDebug then some .debug
  else if level = LogLevelInfo then some .info
  else if level = LogLevelWarn then some .warn
  else if level = LogLevelError then some .error
  else none

/-- Log (src/unnamed/part_001, lines 109-126).  When the switch matched, one
line is emitted; otherwise the event is nil and Msg on a nil *zerolog.Event is
a no-op, so nothing is emitted. -/
def FunctionContext.Log (this : FunctionContext) (level : Int) (message : String) :
    Option LogLine :=
  match levelEvent level with
  | some sev => some (mkLog this sev message)
  | none => none

/-- Logf (src/unnamed/part_001, lines 129-146), over the already-rendered
format result (Msgf applies fmt.Sprintf to format and args; the formatting
itself belongs to the fmt package).  Same switch and nil-event behaviour
as Log. -/
def FunctionContext.Logf (this : FunctionContext) (level : Int) (formatted : String) :
    Option LogLine :=
  match levelEvent level with
  | some sev => some (mkLog this sev formatted)
  | none => none

/-- Result of a Go call that may panic instead of returning. -/
inductive GoResult (α : Type) where
  | ok (val : α)
  | panicked (msg : String)
  deriving DecidableEq, Repr

/-- GetBody (src/FunctionContext.go, lines 124-129):
`make([]byte, ContentLength)` panics when ContentLength is negative;
otherwise a single Body.Read into the buffer is performed and its error is
returned with the (possibly only partially filled, zero-padded) buffer. -/
def FunctionContext.GetBody (this : FunctionContext) :
    GoResult (List Nat × Option String) :=
  let r := this.Request
  if r.ContentLength < 0 then
    .panicked "makeslice: len out of range"
  else
    let L := r.ContentLength.toNat
    match r.bodySteps with
    | [] => .ok (List.replicate L 0, some "EOF")
    | step :: _ =>
        .ok (step.bytes.take L ++ List.replicate (L - min step.bytes.length L) 0, step.err)

/-- State of the outbound http.ResponseWriter: header map, status code once
WriteHeader has run, body once a Write has succeeded. -/
structure RespState where
  headers : List (String × String)
  status : Option Int
  body : Option JsonVal

/-- Header().Set(k, v): replaces any existing value of the key. -/
def setHeader (st : RespState) (k v : String) : RespState :=
  { st with headers := (k, v) :: st.headers.filter (fun p => p.1 != k) }

/-- Observable effect of one response-writing operation: the final response
state, the lines logged on the way, and, when the operation panicked through
Logger.Panic().Msg, the panic message (none = returned normally). -/
structure WriteOutcome where
  resp : RespState
  logs : List LogLine
  abortMsg : Option String

/-- ErrorResponseStruct (src/unnamed/part_001, lines 32-36). -/
structure ErrorResponseStruct where
  SpanId : String
  ErrorCode : Int
  Message : String
  deriving DecidableEq, Repr

/-- json.Marshal of ErrorResponseStruct: tags spanId, errorCode, and
message with omitempty, so the message field is dropped exactly when it is
the empty string. -/
def ErrorResponseStruct.marshal (e : ErrorResponseStruct) : JsonVal :=
  .obj ([("spanId", .str e.SpanId), ("errorCode", .int e.ErrorCode)] ++
    (if e.Message = "" then [] else [("message", .str e.Message)]))

/-- SuccessResponseStruct (src/unnamed/part_001, lines 39-42). -/
structure SuccessResponseStruct where
  SpanId : String
  Data : Option JsonVal

/-- json.Marshal of SuccessResponseStruct: tags spanId, and data with
omitempty, so the data field is dropped when the interface value is nil. -/
def SuccessResponseStruct.marshal (s : SuccessResponseStruct) : JsonVal :=
  .obj (("spanId", .str s.SpanId) ::
    (match s.Data with
     | none => []
     | some d => [("data", d)]))

/-- ErrResponse (src/unnamed/part_001, lines 176-207).  `writeErr` is the
error the sink's Write call reports (none = success).  json.Marshal of
ErrorResponseStruct (plain string and int fields) cannot fail, so the
serialization-failure branch at lines 194-198 is unreachable and has no case
here.  The stackFrameLevel bookkeeping only adjusts zerolog's Caller
annotation (the reported source file), which is not part of the modelled
line. -/
def FunctionContext.ErrResponse (this : FunctionContext) (writeErr : Option String)
    (errorCode : Int) (err : Option String) (explanation : String)
    (st : RespState) : WriteOutcome :=
  let errLine := mkLog this .error
    (match err with
     | some c =>
        "Exception occured (Error code " ++ toString errorCode ++ ") \"" ++
          explanation ++ "\": " ++ c
     | none =>
        "Exception occured (Error code " ++ toString errorCode ++ ") \"" ++
          explanation ++ "\"")
  let st1 := setHeader st "Content-Type" "application/json; charset=utf-8"
  let payload := ErrorResponseStruct.marshal
    { SpanId := this.SpanId, ErrorCode := errorCode, Message := explanation }
  let st2 := { st1 with status := some errorCode }
  match writeErr with
  | some e =>
      { resp := st2
        logs := [errLine]
        abortMsg := some (this.spanIdLogField ++ "Could not send response to user: " ++ e) }
  | none =>
      { resp := { st2 with body := some payload }
        logs := [errLine]
        abortMsg := none }

/-- FailResponse (src/unnamed/part_001, lines 169-173): delegates to
ErrResponse with a nil error. -/
def FunctionContext.FailResponse (this : FunctionContext) (writeErr : Option String)
    (errorCode : Int) (explanation : String) (st : RespState) : WriteOutcome :=
  this.ErrResponse writeErr errorCode none explanation st

/-- OkResponse (src/unnamed/part_001, lines 210-226). -/
def FunctionContext.OkResponse (this : FunctionContext) (writeErr : Option String)
    (format : String) (data : JsonVal) (st : RespState) : WriteOutcome :=
  let infoLine := mkLog this .info "Finished processing the request"
  let st1 := setHeader st "Content-Type" format
  let st2 := { st1 with status := some 200 }
  match writeErr with
  | some e =>
      { resp := st2
        logs := [infoLine]
        abortMsg := some (this.spanIdLogField ++ "Could not send response to user: " ++ e) }
  | none =>
      { resp := { st2 with body := some data }
        logs := [infoLine]
        abortMsg := none }

/-- OkResponseJson (src/unnamed/part_001, lines 236-252): wraps the data in
SuccessResponseStruct with this.SpanId, marshals it (which cannot fail for a
serializable value, so the failure branch at lines 244-248 has no case), and
delegates to OkResponse with the JSON content type. -/
def FunctionContext.OkResponseJson (this : FunctionContext) (writeErr : Option String)
    (data : Option JsonVal) (st : RespState) : WriteOutcome :=
  let payload := SuccessResponseStruct.marshal { SpanId := this.SpanId, Data := data }
  this.OkResponse writeErr "application/json; charset=utf-8" payload st

/-- A concrete context.Context handle. -/
def ctx0 : GoContext := { id := 0 }

/-- A minimal concrete request. -/
def req0 : Request := { ContentLength := 0, bodySteps := [], reqCtx := ctx0 }

/-- A fresh response state. -/
def st0 : RespState := { headers := [], status := none, body := none }

/-- A concrete context constructed in deployed mode. -/
def fcDeployed : FunctionContext := FuncCtx false "abc123" 0 req0

/-- A request declaring two body bytes whose stream supplies only one byte
(with a nil error) on the first Read, as a chunked or slow transport does. -/
def shortReq : Request :=
  { ContentLength := 2, bodySteps := [{ bytes := [7], err := none }], reqCtx := ctx0 }

/-- A context over shortReq. -/
def shortCtx : FunctionContext := FuncCtx false "abc123" 0 shortReq

/-- A request with a negative declared ContentLength (unknown body length). -/
def negReq : Request := { ContentLength := -1, bodySteps := [], reqCtx := ctx0 }

/-- A context over negReq. -/
def negCtx : FunctionContext := FuncCtx false "abc123" 0 negReq

/-- Claim C1: for every status code and user message, FailResponse(code, msg)
is observationally equivalent to ErrResponse(code, nil, msg): the two calls
produce the same response state, logs and abort behaviour for every sink
behaviour; with a working sink neither aborts; attaching an underlying cause
to ErrResponse changes only the logged text, never the response or the abort
outcome; and the line FailResponse logs carries no underlying-cause text. -/
theorem c1_failResponse_equiv (fc : FunctionContext) (writeErr : Option String)
    (code : Int) (msg : String) (st : RespState) :
    fc.FailResponse writeErr code msg st = fc.ErrResponse writeErr code none msg st
    ∧ (fc.FailResponse none code msg st).abortMsg = none
    ∧ (fc.ErrResponse none code none msg st).abortMsg = none
    ∧ (∀ cause : String,
        (fc.ErrResponse writeErr code (some cause) msg st).resp
          = (fc.FailResponse writeErr code msg st).resp
        ∧ (fc.ErrResponse writeErr code (some cause) msg st).abortMsg
          = (fc.FailResponse writeErr code msg st).abortMsg)
    ∧ (fc.FailResponse writeErr code msg st).logs
        = [mkLog fc .error
            ("Exception occured (Error code " ++ toString code ++ ") \"" ++ msg ++ "\"")] := by
  refine ⟨rfl, rfl, rfl, fun cause => ?_, ?_⟩ <;>
    cases writeErr <;>
      simp [FunctionContext.FailResponse, FunctionContext.ErrResponse]

/-- Claim C2: for every serializable value v, OkResponseJson(v) writes a
success envelope whose spanId field is the Context's undecorated SpanId and
whose data field equals v, with JSON content type and HTTP status 200. -/
theorem c2_okResponseJson_envelope (isLocal : Bool) (spanId : String) (w : Nat)
    (r : Request) (v : JsonVal) (st : RespState) :
    ((FuncCtx isLocal spanId w r).OkResponseJson none (some v) st).resp.status = some 200
    ∧ List.lookup "Content-Type"
        ((FuncCtx isLocal spanId w r).OkResponseJson none (some v) st).resp.headers
        = some "application/json; charset=utf-8"
    ∧ ((FuncCtx isLocal spanId w r).OkResponseJson none (some v) st).resp.body
        = some (JsonVal.obj [("spanId", .str spanId), ("data", v)])
    ∧ (FuncCtx isLocal spanId w r).SpanId = spanId :=
  ⟨rfl, rfl, rfl, rfl⟩

/-- Claim C3 evaluation: at an unrecognized level the switch leaves the
zerolog event nil and the nil-event Msg/Msgf is a no-op, so Log and Logf
silently drop the message instead of emitting it at debug severity (the
repo's own tests expect the message to be emitted). -/
theorem c3_unrecognized_level_dropped :
    fcDeployed.Log 123123 "msg" = none ∧ fcDeployed.Logf 123123 "msg" = none :=
  ⟨rfl, rfl⟩

/-- Claim C4 evaluation: on a request declaring two body bytes whose stream
supplies a single byte with a nil error on the first Read, GetBody returns
the zero-padded buffer with a nil error instead of reporting the short
read. -/
theorem c4_short_supply_no_error :
    shortCtx.GetBody = GoResult.ok ([7, 0], (none : Option String)) := rfl

/-- Claim C5: the error envelope serialized by ErrResponse carries the
correlation id and the integer error code, and its message field is omitted
exactly when the user message is the empty string (otherwise it equals the
message). -/
theorem c5_error_envelope_fields (fc : FunctionContext) (code : Int)
    (err : Option String) (msg : String) (st : RespState) :
    (fc.ErrResponse none code err msg st).resp.body
      = some (ErrorResponseStruct.marshal
          { SpanId := fc.SpanId, ErrorCode := code, Message := msg })
    ∧ List.lookup "spanId"
        (ErrorResponseStruct.marshal
          { SpanId := fc.SpanId, ErrorCode := code, Message := msg }).objFields
      = some (.str fc.SpanId)
    ∧ List.lookup "errorCode"
        (ErrorResponseStruct.marshal
          { SpanId := fc.SpanId, ErrorCode := code, Message := msg }).objFields
      = some (.int code)
    ∧ List.lookup "message"
        (ErrorResponseStruct.marshal
          { SpanId := fc.SpanId, ErrorCode := code, Message := msg }).objFields
      = (if msg = "" then none else some (.str msg)) := by
  refine ⟨rfl, rfl, rfl, ?_⟩
  by_cases h : msg = ""
  · subst h; rfl
  · simp only [ErrorResponseStruct.marshal, JsonVal.objFields, if_neg h]
    rfl

/-- Claim C6: for every status code, cause and non-empty message, ErrResponse
writes HTTP status equal to the code, the JSON content type, and a body whose
envelope carries errorCode equal to the code and message equal to the
message. -/
theorem c6_errResponse_wire (fc : FunctionContext) (code : Int) (err : Option String)
    (msg : String) (st : RespState) (h : msg ≠ "") :
    (fc.ErrResponse none code err msg st).resp.status = some code
    ∧ List.lookup "Content-Type" (fc.ErrResponse none code err msg st).resp.headers
        = some "application/json; charset=utf-8"
    ∧ (fc.ErrResponse none code err msg st).resp.body
        = some (JsonVal.obj
            [("spanId", .str fc.SpanId), ("errorCode", .int code), ("message", .str msg)]) := by
  refine ⟨rfl, rfl, ?_⟩
  show some (ErrorResponseStruct.marshal
      { SpanId := fc.SpanId, ErrorCode := code, Message := msg }) = _
  simp only [ErrorResponseStruct.marshal, if_neg h]
  rfl

/-- Claim C6 witness at a concrete status code, cause, message and state. -/
theorem c6_errResponse_wire_witness :
    (fcDeployed.ErrResponse none 400 (some "boom") "Test Error Message" st0).resp.status = some 400
    ∧ List.lookup "Content-Type"
        (fcDeployed.ErrResponse none 400 (some "boom") "Test Error Message" st0).resp.headers
        = some "application/json; charset=utf-8"
    ∧ (fcDeployed.ErrResponse none 400 (some "boom") "Test Error Message" st0).resp.body
        = some (JsonVal.obj
            [("spanId", .str fcDeployed.SpanId), ("errorCode", .int 400),
              ("message", .str "Test Error Message")]) :=
  c6_errResponse_wire fcDeployed 400 (some "boom") "Test Error Message" st0 (by decide)

/-- Claim C7: if the sink's Write reports an error, every response-writing
operation (OkResponse, OkResponseJson, ErrResponse, FailResponse) panics
through the logger instead of returning normally, with a message made of the
span prefix, the literal "Could not send response to user: ", and the
underlying error text. -/
theorem c7_write_failure_aborts (fc : FunctionContext) (e : String) (format : String)
    (raw : JsonVal) (data : Option JsonVal) (code : Int) (err : Option String)
    (msg : String) (st : RespState) :
    (fc.OkResponse (some e) format raw st).abortMsg
      = some (fc.spanIdLogField ++ "Could not send response to user: " ++ e)
    ∧ (fc.OkResponseJson (some e) data st).abortMsg
      = some (fc.spanIdLogField ++ "Could not send response to user: " ++ e)
    ∧ (fc.ErrResponse (some e) code err msg st).abortMsg
      = some (fc.spanIdLogField ++ "Could not send response to user: " ++ e)
    ∧ (fc.FailResponse (some e) code msg st).abortMsg
      = some (fc.spanIdLogField ++ "Could not send response to user: " ++ e) :=
  ⟨rfl, rfl, rfl, rfl⟩

/-- Claim C8: WithCtx preserves SpanId (which is non-empty), logger, request,
response and the span-id log prefix, replacing only the Context field with
the supplied value. -/
theorem c8_withCtx_frame (isLocal : Bool) (spanId : String) (w : Nat) (r : Request)
    (ctx2 : GoContext) (h : spanId ≠ "") :
    ((FuncCtx isLocal spanId w r).WithCtx ctx2).SpanId = (FuncCtx isLocal spanId w r).SpanId
    ∧ ((FuncCtx isLocal spanId w r).WithCtx ctx2).SpanId ≠ ""
    ∧ ((FuncCtx isLocal spanId w r).WithCtx ctx2).Logger = (FuncCtx isLocal spanId w r).Logger
    ∧ ((FuncCtx isLocal spanId w r).WithCtx ctx2).Request = (FuncCtx isLocal spanId w r).Request
    ∧ ((FuncCtx isLocal spanId w r).WithCtx ctx2).Response = (FuncCtx isLocal spanId w r).Response
    ∧ ((FuncCtx isLocal spanId w r).WithCtx ctx2).spanIdLogField
        = (FuncCtx isLocal spanId w r).spanIdLogField
    ∧ ((FuncCtx isLocal spanId w r).WithCtx ctx2).Context = ctx2 :=
  ⟨rfl, h, rfl, rfl, rfl, rfl, rfl⟩

/-- Claim C8 witness at a concrete construction and replacement context. -/
theorem c8_withCtx_frame_witness :
    ((FuncCtx false "abc123" 0 req0).WithCtx (GoContext.mk 5)).SpanId
        = (FuncCtx false "abc123" 0 req0).SpanId
    ∧ ((FuncCtx false "abc123" 0 req0).WithCtx (GoContext.mk 5)).SpanId ≠ ""
    ∧ ((FuncCtx false "abc123" 0 req0).WithCtx (GoContext.mk 5)).Logger
        = (FuncCtx false "abc123" 0 req0).Logger
    ∧ ((FuncCtx false "abc123" 0 req0).WithCtx (GoContext.mk 5)).Request
        = (FuncCtx false "abc123" 0 req0).Request
    ∧ ((FuncCtx false "abc123" 0 req0).WithCtx (GoContext.mk 5)).Response
        = (FuncCtx false "abc123" 0 req0).Response
    ∧ ((FuncCtx false "abc123" 0 req0).WithCtx (GoContext.mk 5)).spanIdLogField
        = (FuncCtx false "abc123" 0 req0).spanIdLogField
    ∧ ((FuncCtx false "abc123" 0 req0).WithCtx (GoContext.mk 5)).Context = GoContext.mk 5 :=
  c8_withCtx_frame false "abc123" 0 req0 (GoContext.mk 5) (by decide)

/-- Claim C9 counterexample: in deployed mode a single log line carries the
correlation id both inline in the message text (as the bracketed prefix) and
as the structured spanId field, refuting the claim that no mode carries
both. -/
theorem c9_deployed_line_carries_both :
    (fcDeployed.Info "hello").messageText = "[abc123] hello"
    ∧ (∃ rest, (fcDeployed.Info "hello").messageText = "[" ++ fcDeployed.SpanId ++ "] " ++ rest)
    ∧ (fcDeployed.Info "hello").structuredSpanId = some ("[" ++ fcDeployed.SpanId ++ "]") := by
  exact ⟨by decide, ⟨"hello", rfl⟩, rfl⟩

/-- Claim C9 amended: in local mode the correlation-id prefix is omitted from
the message text of every log line (and the console renderer suppresses the
structured spanId field); in deployed mode every log line carries the
correlation id both inline as a message-text prefix and as the structured
spanId field. -/
theorem c9_local_omits_deployed_both (spanId : String) (w : Nat) (r : Request)
    (sev : Severity) (msg : String) :
    (mkLog (FuncCtx true spanId w r) sev msg).messageText = msg
    ∧ (mkLog (FuncCtx true spanId w r) sev msg).structuredSpanId = none
    ∧ (mkLog (FuncCtx false spanId w r) sev msg).messageText
        = "[" ++ spanId ++ "] " ++ msg
    ∧ (mkLog (FuncCtx false spanId w r) sev msg).structuredSpanId
        = some ("[" ++ spanId ++ "]") :=
  ⟨rfl, rfl, rfl, rfl⟩

/-- Claim C10: on any request with a negative declared ContentLength, GetBody
panics inside make([]byte, ContentLength) and never returns a (bytes, error)
pair. -/
theorem c10_negative_length_panics (fc : FunctionContext)
    (h : fc.Request.ContentLength < 0) :
    fc.GetBody = GoResult.panicked "makeslice: len out of range" := by
  simp [FunctionContext.GetBody, h]

/-- Claim C10 witness: the concrete request declaring ContentLength -1. -/
theorem c10_negative_length_panics_witness :
    negCtx.GetBody = GoResult.panicked "makeslice: len out of range" :=
  c10_negative_length_panics negCtx (by decide)

end FunctionToolkit
